import Mathlib

/-!
Verification of the query-deduplication and caching layer of the
Nigeria-PHC-AI-Assistant backend
(`backend/services/cache_service.py`, `backend/services/deduplication_service.py`).

The Python services are shallowly embedded: `datetime.now()` becomes an explicit
`now : Nat` argument (seconds), the in-memory `dict` caches become insertion-ordered
association lists (Python 3.7+ dicts preserve insertion order, and in-place key
assignment keeps the original position), and `hashlib.sha256(...).hexdigest()` is a
full executable SHA-256 over UTF-8 byte lists.  File I/O in `save_to_disk` /
`load_from_disk` is modelled as the serialized snapshot value itself (the pickled
`self.cache` dict).
-/

namespace Phc

/-! ### SHA-256 over byte lists (embedding of `hashlib.sha256(...).hexdigest()`) -/

/-- 2^32, the word modulus of SHA-256. -/
def w32 : Nat := 4294967296

def xor32 (x y : Nat) : Nat := (x ^^^ y) % w32

def and32 (x y : Nat) : Nat := x &&& y

/-- Bitwise complement on 32-bit words. -/
def not32 (x : Nat) : Nat := (w32 - 1) - x % w32

def add32 (x y : Nat) : Nat := (x + y) % w32

/-- Rotate a 32-bit word right by `n`. -/
def rotr (n x : Nat) : Nat := (x / 2 ^ n + x % 2 ^ n * 2 ^ (32 - n)) % w32

/-- Logical shift right. -/
def shr (n x : Nat) : Nat := x / 2 ^ n

def bigSigma0 (x : Nat) : Nat := xor32 (xor32 (rotr 2 x) (rotr 13 x)) (rotr 22 x)

def bigSigma1 (x : Nat) : Nat := xor32 (xor32 (rotr 6 x) (rotr 11 x)) (rotr 25 x)

def smallSigma0 (x : Nat) : Nat := xor32 (xor32 (rotr 7 x) (rotr 18 x)) (shr 3 x)

def smallSigma1 (x : Nat) : Nat := xor32 (xor32 (rotr 17 x) (rotr 19 x)) (shr 10 x)

/-- The 64 SHA-256 round constants. -/
def sha256K : List Nat :=
  [1116352408, 1899447441, 3049323471, 3921009573, 961987163, 1508970993,
   2453635748, 2870763221, 3624381080, 310598401, 607225278, 1426881987,
   1925078388, 2162078206, 2614888103, 3248222580, 3835390401, 4022224774,
   264347078, 604807628, 770255983, 1249150122, 1555081692, 1996064986,
   2554220882, 2821834349, 2952996808, 3210313671, 3336571891, 3584528711,
   113926993, 338241895, 666307205, 773529912, 1294757372, 1396182291,
   1695183700, 1986661051, 2177026350, 2456956037, 2730485921, 2820302411,
   3259730800, 3345764771, 3516065817, 3600352804, 4094571909, 275423344,
   430227734, 506948616, 659060556, 883997877, 958139571, 1322822218,
   1537002063, 1747873779, 1955562222, 2024104815, 2227730452, 2361852424,
   2428436474, 2756734187, 3204031479, 3329325298]

/-- The SHA-256 initial hash value. -/
def sha256H0 : List Nat :=
  [1779033703, 3144134277, 1013904242, 2773480762,
   1359893119, 2600822924, 528734635, 1541459225]

/-- Big-endian byte decomposition of a natural, `k` bytes wide. -/
def natToBytesBE : Nat → Nat → List Nat
  | 0, _ => []
  | k+1, n => natToBytesBE k (n / 256) ++ [n % 256]

/-- SHA-256 padding: append `0x80`, zero bytes to 56 mod 64, then the 64-bit
big-endian bit length. -/
def sha256Pad (msg : List Nat) : List Nat :=
  let len := msg.length
  let zeros := (56 - (len + 1) % 64 + 64) % 64
  msg ++ [128] ++ List.replicate zeros 0 ++ natToBytesBE 8 (8 * len)

/-- Group bytes into big-endian 32-bit words. -/
def bytesToWords : List Nat → List Nat
  | b0 :: b1 :: b2 :: b3 :: rest =>
    (((b0 * 256 + b1) * 256 + b2) * 256 + b3) :: bytesToWords rest
  | _ => []

/-- Split a byte list into 64-byte blocks (fuel-driven for kernel evaluation). -/
def toBlocksAux : Nat → List Nat → List (List Nat)
  | 0, _ => []
  | _, [] => []
  | fuel+1, l => l.take 64 :: toBlocksAux fuel (l.drop 64)

def toBlocks (l : List Nat) : List (List Nat) := toBlocksAux l.length l

/-- Extend the 16-word message schedule by `k` further words. -/
def extendSchedule : Nat → List Nat → List Nat
  | 0, ws => ws
  | k+1, ws =>
    let t := ws.length
    let w := add32 (add32 (smallSigma1 (ws.getD (t - 2) 0)) (ws.getD (t - 7) 0))
                   (add32 (smallSigma0 (ws.getD (t - 15) 0)) (ws.getD (t - 16) 0))
    extendSchedule k (ws ++ [w])

/-- One SHA-256 round on the working state `[a,b,c,d,e,f,g,h]`,
given the scheduled word and round constant. -/
def sha256Step (st : List Nat) (wk : Nat × Nat) : List Nat :=
  match st with
  | [a, b, c, d, e, f, g, h] =>
    let s1 := bigSigma1 e
    let ch := xor32 (and32 e f) (and32 (not32 e) g)
    let t1 := add32 (add32 (add32 h s1) (add32 ch wk.1)) wk.2
    let s0 := bigSigma0 a
    let maj := xor32 (xor32 (and32 a b) (and32 a c)) (and32 b c)
    let t2 := add32 s0 maj
    [add32 t1 t2, a, b, c, add32 d t1, e, f, g]
  | _ => st

/-- Compress one 64-byte block into the hash state. -/
def sha256Compress (hs : List Nat) (block : List Nat) : List Nat :=
  let ws := extendSchedule 48 (bytesToWords block)
  let st := (ws.zip sha256K).foldl sha256Step hs
  List.zipWith add32 hs st

/-- SHA-256 of a byte list: eight 32-bit words. -/
def sha256 (msg : List Nat) : List Nat :=
  (toBlocks (sha256Pad msg)).foldl sha256Compress sha256H0

def hexChar (n : Nat) : Char :=
  if n < 10 then Char.ofNat (48 + n) else Char.ofNat (87 + n)

/-- Lower-case hex rendering of a natural, `k` digits wide. -/
def natToHex : Nat → Nat → List Char
  | 0, _ => []
  | k+1, n => natToHex k (n / 16) ++ [hexChar (n % 16)]

/-- Hex digest, as `hexdigest()` renders it. -/
def sha256hex (msg : List Nat) : String :=
  String.mk ((sha256 msg).foldr (fun w acc => natToHex 8 w ++ acc) [])

/-- UTF-8 encoding of one character (as Python's `str.encode()`). -/
def utf8Char (c : Char) : List Nat :=
  let n := c.toNat
  if n < 128 then [n]
  else if n < 2048 then [192 + n / 64, 128 + n % 64]
  else if n < 65536 then [224 + n / 4096, 128 + n / 64 % 64, 128 + n % 64]
  else [240 + n / 262144, 128 + n / 4096 % 64, 128 + n / 64 % 64, 128 + n % 64]

/-- UTF-8 bytes of a string (`s.encode()`). -/
def strBytes (s : String) : List Nat := (s.data.map utf8Char).flatten

set_option maxRecDepth 100000

/-! ### Insertion-ordered association lists (embedding of Python `dict`)

Python 3.7+ dicts preserve insertion order; assigning to an existing key keeps its
position, assigning a fresh key appends, and `del` removes the binding. -/

/-- `d[key]` lookup (first binding wins; embedded dicts have unique keys). -/
def alookup {β : Type} : List (String × β) → String → Option β
  | [], _ => none
  | (k, v) :: rest, key => if k = key then some v else alookup rest key

/-- `d[key] = val`: replace in place if present, else append. -/
def aset {β : Type} : List (String × β) → String → β → List (String × β)
  | [], key, val => [(key, val)]
  | (k, v) :: rest, key, val =>
    if k = key then (k, val) :: rest else (k, v) :: aset rest key val

/-- `del d[key]` (no-op when absent). -/
def aerase {β : Type} : List (String × β) → String → List (String × β)
  | [], _ => []
  | (k, v) :: rest, key => if k = key then rest else (k, v) :: aerase rest key

/-- The dict invariant: no key occurs twice. -/
def nodupKeys {β : Type} (l : List (String × β)) : Prop :=
  (l.map Prod.fst).Nodup

instance {β : Type} (l : List (String × β)) : Decidable (nodupKeys l) :=
  inferInstanceAs (Decidable ((l.map Prod.fst).Nodup))

/-! ### CacheService (embedding of `backend/services/cache_service.py`) -/

/-- One cache slot: the dict
`{'value': …, 'created_at': …, 'expires_at': …, 'hits': 0}` built by `set`. -/
structure CacheEntry (α : Type) where
  value : α
  created_at : Nat
  expires_at : Nat
  hits : Nat
deriving Repr, DecidableEq

/-- The mutable state of a `CacheService` instance.  `ttl` and `max_size` are the
constructor-resolved defaults (`settings.CACHE_TTL = 3600`,
`settings.MAX_CACHE_SIZE = 1000` in `backend/core/config.py`). -/
structure CacheService (α : Type) where
  cache : List (String × CacheEntry α)
  ttl : Nat
  max_size : Nat
deriving Repr, DecidableEq

/-- Python's `x or default` on an optional integer argument: `None` and `0` are
falsy, so both fall back to the default. -/
def orDefault (x? : Option Nat) (d : Nat) : Nat :=
  match x? with
  | some x => if x = 0 then d else x
  | none => d

/-- A fresh `CacheService(ttl, max_size)` with the module defaults applied. -/
def mkCacheService (α : Type) (ttl? max_size? : Option Nat) : CacheService α :=
  { cache := [], ttl := orDefault ttl? 3600, max_size := orDefault max_size? 1000 }

/-- `min(self.cache.keys(), key=lambda k: self.cache[k]['created_at'])`:
first key attaining the minimal `created_at` (Python `min` keeps the earliest
of ties in iteration order). -/
def oldestKeyAux {α : Type} (best : String × Nat) :
    List (String × CacheEntry α) → String
  | [] => best.1
  | (k, e) :: rest =>
    if e.created_at < best.2 then oldestKeyAux (k, e.created_at) rest
    else oldestKeyAux best rest

/-- `CacheService._evict_oldest`. -/
def CacheService.evictOldest {α : Type} (s : CacheService α) : CacheService α :=
  match s.cache with
  | [] => s
  | (k, e) :: rest =>
    { s with cache := aerase s.cache (oldestKeyAux (k, e.created_at) rest) }

/-- `CacheService.set(key, value, ttl)`.  The source first evicts the oldest
entry whenever `len(self.cache) >= self.max_size` (before looking at `key`),
then stores `{'value': value, 'created_at': now, 'expires_at': now + ttl,
'hits': 0}`; it returns `True` on this path, so only the state is modelled. -/
def CacheService.set {α : Type} (s : CacheService α) (now : Nat) (key : String)
    (value : α) (ttl? : Option Nat) : CacheService α :=
  let s1 := if s.cache.length ≥ s.max_size then s.evictOldest else s
  let t := orDefault ttl? s.ttl
  { s1 with cache := aset s1.cache key ⟨value, now, now + t, 0⟩ }

/-- `CacheService.get(key)`: `None` on a missing key; on an expired entry
(`now > expires_at`) the entry is deleted and `None` returned; on a hit the
`hits` counter is incremented and the value returned. -/
def CacheService.get {α : Type} (s : CacheService α) (now : Nat) (key : String) :
    Option α × CacheService α :=
  match alookup s.cache key with
  | none => (none, s)
  | some e =>
    if now > e.expires_at then (none, { s with cache := aerase s.cache key })
    else (some e.value,
          { s with cache := aset s.cache key { e with hits := e.hits + 1 } })

/-- `CacheService.exists(key)`, i.e. `self.get(key) is not None`
(named `existsKey` because `exists` is reserved in Lean). -/
def CacheService.existsKey {α : Type} (s : CacheService α) (now : Nat)
    (key : String) : Bool × CacheService α :=
  let r := s.get now key
  (r.1.isSome, r.2)

/-- `CacheService.delete(key)`: raw `key in self.cache` presence check,
no expiry consultation. -/
def CacheService.delete {α : Type} (s : CacheService α) (key : String) :
    Bool × CacheService α :=
  if (alookup s.cache key).isSome then
    (true, { s with cache := aerase s.cache key })
  else (false, s)

/-- `CacheService.save_to_disk(filename)`: pickles `self.cache`.  The durable
blob is modelled as the snapshot itself. -/
def CacheService.save_to_disk {α : Type} (s : CacheService α) :
    List (String × CacheEntry α) :=
  s.cache

/-- `CacheService.load_from_disk(filename)`: replaces `self.cache` with the
unpickled blob, then deletes every key with `now > expires_at`.  On a
duplicate-free dict that deletion loop is the order-preserving filter below. -/
def CacheService.load_from_disk {α : Type} (s : CacheService α)
    (blob : List (String × CacheEntry α)) (now : Nat) : CacheService α :=
  { s with cache := blob.filter (fun p => !(decide (now > p.2.expires_at))) }

/-! ### Content normalization and fingerprinting
(embedding of `DeduplicationService.generate_query_id`) -/

/-- A query-content mapping as the service reads it: `content.get('symptoms', '')`,
`content.get('age')`, `content.get('gender')`, `content.get('language', 'english')`.
An absent key and an explicit `None` are both `none`. -/
structure Content where
  symptoms : Option String
  age : Option Int
  gender : Option String
  language : Option String
deriving Repr, DecidableEq

/-- Python `str.lower()` (ASCII case, which covers the service's inputs). -/
def pyLower (s : String) : String := String.mk (s.data.map Char.toLower)

/-- Python `str.strip()`: drop leading and trailing whitespace. -/
def pyStrip (s : String) : String :=
  String.mk (((s.data.dropWhile Char.isWhitespace).reverse.dropWhile
    Char.isWhitespace).reverse)

/-- The `normalized` dict built inside `generate_query_id`: only `symptoms` is
lower-cased and stripped; `age` and `gender` pass through; `language` defaults
to `'english'` when missing but is NOT case-normalized. -/
structure NormalizedContent where
  symptoms : String
  age : Option Int
  gender : Option String
  language : String
deriving Repr, DecidableEq

def normalize (c : Content) : NormalizedContent :=
  { symptoms := pyStrip (pyLower (c.symptoms.getD ""))
  , age := c.age
  , gender := c.gender
  , language := c.language.getD "english" }

/-- JSON string escaping for the payload characters the service handles
(printable text; `json.dumps` additionally escapes quotes and backslashes). -/
def jsonEscapeChar (c : Char) : List Char :=
  if c = '"' then ['\\', '"']
  else if c = '\\' then ['\\', '\\']
  else [c]

def jsonStr (s : String) : String :=
  "\"" ++ String.mk (s.data.flatMap jsonEscapeChar) ++ "\""

def jsonOptInt (x : Option Int) : String :=
  match x with
  | none => "null"
  | some n => toString n

def jsonOptStr (x : Option String) : String :=
  match x with
  | none => "null"
  | some s => jsonStr s

/-- `json.dumps(normalized, sort_keys=True)`: keys in lexicographic order
`age < gender < language < symptoms`, default separators. -/
def contentString (n : NormalizedContent) : String :=
  "\x7b\"age\": " ++ jsonOptInt n.age ++ ", \"gender\": " ++ jsonOptStr n.gender ++
  ", \"language\": " ++ jsonStr n.language ++ ", \"symptoms\": " ++
  jsonStr n.symptoms ++ "\x7d"

/-- `DeduplicationService.generate_query_id`:
SHA-256 hex digest of the canonically serialized normalized content. -/
def generate_query_id (c : Content) : String :=
  sha256hex (strBytes (contentString (normalize c)))

/-! ### DeduplicationService
(embedding of `backend/services/deduplication_service.py`; the module-level
`cache_service` singleton it calls into is carried as the `cache_service`
field of the state) -/

/-- The dict stored under `"query_seen_" + query_id`:
`{'seen_at': …, 'query_id': …}`.  As a two-element dict it is always truthy. -/
structure SeenRecord where
  seen_at : Nat
  query_id : String
deriving Repr, DecidableEq

/-- Joint state: the service's own `seen_hashes` dict (query id ↦ `datetime.now()`)
plus the global cache singleton it reads and writes. -/
structure DeduplicationService where
  seen_hashes : List (String × Nat)
  cache_service : CacheService SeenRecord
deriving Repr, DecidableEq

/-- Fresh service against a fresh default cache (both constructors start empty). -/
def initialDedup : DeduplicationService :=
  { seen_hashes := [], cache_service := mkCacheService SeenRecord none none }

/-- `DeduplicationService.is_duplicate(query_id)`: consult the cache under
`"query_seen_" + query_id` (`if cached:` is truthiness, and the stored record
is a non-empty dict, hence truthy), then fall back to `query_id in
self.seen_hashes`.  The cache `get` side effects (hit increment or lazy
expiry removal) are threaded through. -/
def DeduplicationService.is_duplicate (s : DeduplicationService) (now : Nat)
    (query_id : String) : Bool × DeduplicationService :=
  let cache_key := "query_seen_" ++ query_id
  let r := s.cache_service.get now cache_key
  (r.1.isSome || (alookup s.seen_hashes query_id).isSome,
   { s with cache_service := r.2 })

/-- `DeduplicationService.mark_as_seen(query_id, ttl=86400)`: store the seen
record in the cache under the dedup TTL and record the id in `seen_hashes`. -/
def DeduplicationService.mark_as_seen (s : DeduplicationService) (now : Nat)
    (query_id : String) (ttl : Nat) : DeduplicationService :=
  let cache_key := "query_seen_" ++ query_id
  { seen_hashes := aset s.seen_hashes query_id now
  , cache_service :=
      s.cache_service.set now cache_key ⟨now, query_id⟩ (some ttl) }

/-- `DeduplicationService.get_or_create_query_id(content)`:
hash, check, mark-if-new, return `(query_id, is_new)`. -/
def DeduplicationService.get_or_create_query_id (s : DeduplicationService)
    (now : Nat) (content : Content) : (String × Bool) × DeduplicationService :=
  let query_id := generate_query_id content
  let r := s.is_duplicate now query_id
  let s2 := if r.1 then r.2 else r.2.mark_as_seen now query_id 86400
  ((query_id, !r.1), s2)

/-- Split a character stream at whitespace, dropping empty pieces, carrying the
current word reversed. -/
def splitWordsAux : List Char → List Char → List String
  | [], acc => if acc = [] then [] else [String.mk acc.reverse]
  | ch :: cs, acc =>
    if ch.isWhitespace then
      (if acc = [] then [] else [String.mk acc.reverse]) ++ splitWordsAux cs []
    else splitWordsAux cs (ch :: acc)

/-- `text.lower().split()`: Python's argument-less `split` splits on whitespace
runs and drops empty pieces. -/
def pySplitWords (t : String) : List String :=
  splitWordsAux (pyLower t).data []

/-- `DeduplicationService.calculate_text_similarity`: token-set Jaccard
similarity, as an exact rational (the Python float arithmetic on these small
integer ratios is exact for the comparisons made here). -/
def calculate_text_similarity (text1 text2 : String) : ℚ :=
  let set1 := (pySplitWords text1).dedup
  let set2 := (pySplitWords text2).dedup
  if set1 = [] ∨ set2 = [] then 0
  else
    let inter := set1.filter (fun w => decide (w ∈ set2))
    let union := (set1 ++ set2).dedup
    (inter.length : ℚ) / (union.length : ℚ)

/-- The loop body of `find_similar_queries` over `seen_hashes`: for each seen id,
fetch the cached record; if present, compare `similarity = 0.0  # Placeholder`
against the threshold and collect the id on success. -/
def find_similar_aux (cache : CacheService SeenRecord) (now : Nat) (threshold : ℚ) :
    List (String × Nat) → List String × CacheService SeenRecord
  | [] => ([], cache)
  | (query_id, _) :: rest =>
    let r := cache.get now ("query_seen_" ++ query_id)
    match r.1 with
    | some _ =>
      let rec_rest := find_similar_aux r.2 now threshold rest
      let similarity : ℚ := 0
      if similarity ≥ threshold then (query_id :: rec_rest.1, rec_rest.2)
      else rec_rest
    | none => find_similar_aux r.2 now threshold rest

/-- `DeduplicationService.find_similar_queries(symptoms, threshold=0.9)`. -/
def DeduplicationService.find_similar_queries (s : DeduplicationService)
    (now : Nat) (_symptoms : String) (threshold : ℚ) :
    List String × DeduplicationService :=
  let r := find_similar_aux s.cache_service now threshold s.seen_hashes
  (r.1, { s with cache_service := r.2 })

/-! ### Concrete contents and execution models used in concrete instantiations -/

/-- A small concrete query content. -/
def csmall : Content :=
  { symptoms := some "a", age := none, gender := none, language := none }

/-- The spec's first example content. -/
def exampleContent1 : Content :=
  { symptoms := some "Fever, Headache", age := some 30,
    gender := none, language := some "English" }

/-- The spec's second example content (differs only in letter case). -/
def exampleContent2 : Content :=
  { symptoms := some "fever, headache", age := some 30,
    gender := none, language := some "english" }

/-- `n` back-to-back serialized calls to `get_or_create_query_id` with the same
content, collecting each call's `is_new` flag in order. -/
def serialRun (now : Nat) (c : Content) : Nat → DeduplicationService → List Bool
  | 0, _ => []
  | n + 1, s =>
    let r := s.get_or_create_query_id now c
    r.1.2 :: serialRun now c n r.2

/-- Progress of one in-flight `get_or_create_query_id` call, split at the
source's non-atomic check-then-act boundary: `start` (about to run the
duplicate check) → `checked dup` → `done isNew`. -/
inductive CallPhase
  | start : CallPhase
  | checked : Bool → CallPhase
  | done : Bool → CallPhase
deriving Repr, DecidableEq

/-- Shared service state plus the phase of each concurrent call. -/
structure RaceState where
  svc : DeduplicationService
  threads : List CallPhase
deriving Repr, DecidableEq

/-- Run the next micro-step of thread `tid` (no-op for a finished thread).
The duplicate check and the mark-as-seen are separate atomic actions on the
shared state, exactly as `get_or_create_query_id` performs them. -/
def raceStep (now : Nat) (c : Content) (st : RaceState) (tid : Nat) : RaceState :=
  match st.threads.getD tid (CallPhase.done false) with
  | CallPhase.start =>
    let r := st.svc.is_duplicate now (generate_query_id c)
    { svc := r.2, threads := st.threads.set tid (CallPhase.checked r.1) }
  | CallPhase.checked dup =>
    if dup then { st with threads := st.threads.set tid (CallPhase.done false) }
    else
      { svc := st.svc.mark_as_seen now (generate_query_id c) 86400
      , threads := st.threads.set tid (CallPhase.done true) }
  | CallPhase.done _ => st

/-- Run an interleaving: the schedule names, in order, which thread takes its
next micro-step. -/
def raceRun (now : Nat) (c : Content) (st : RaceState) (sched : List Nat) :
    RaceState :=
  sched.foldl (raceStep now c) st

/-! ### Association-list lemmas -/

theorem alookup_aset_self {β : Type} (l : List (String × β)) (k : String) (v : β) :
    alookup (aset l k v) k = some v := by
  induction l with
  | nil => simp [aset, alookup]
  | cons hd tl ih =>
    obtain ⟨k0, v0⟩ := hd
    by_cases h : k0 = k
    · simp [aset, h, alookup]
    · simp [aset, h, alookup, ih]

theorem alookup_aset_ne {β : Type} (l : List (String × β)) (k k' : String) (v : β)
    (h : k' ≠ k) : alookup (aset l k v) k' = alookup l k' := by
  induction l with
  | nil => simp [aset, alookup, Ne.symm h]
  | cons hd tl ih =>
    obtain ⟨k0, v0⟩ := hd
    by_cases hk : k0 = k
    · subst hk
      simp [aset, alookup, Ne.symm h]
    · simp [aset, hk, alookup, ih]

theorem alookup_eq_none_of_not_mem {β : Type} (l : List (String × β)) (k : String)
    (h : k ∉ l.map Prod.fst) : alookup l k = none := by
  induction l with
  | nil => simp [alookup]
  | cons hd tl ih =>
    obtain ⟨k0, v0⟩ := hd
    simp only [List.map_cons, List.mem_cons] at h
    push_neg at h
    simp [alookup, Ne.symm h.1, ih h.2]

theorem aerase_sublist {β : Type} (l : List (String × β)) (k : String) :
    (aerase l k).Sublist l := by
  induction l with
  | nil => simp [aerase]
  | cons hd tl ih =>
    obtain ⟨k0, v0⟩ := hd
    by_cases h : k0 = k
    · simp only [aerase, h, if_true]
      exact List.sublist_cons_self (k, v0) tl
    · simpa [aerase, h] using ih.cons₂ (k0, v0)

theorem nodupKeys_aerase {β : Type} (l : List (String × β)) (k : String)
    (h : nodupKeys l) : nodupKeys (aerase l k) :=
  ((aerase_sublist l k).map Prod.fst).nodup h

theorem alookup_aerase_self {β : Type} (l : List (String × β)) (k : String)
    (h : nodupKeys l) : alookup (aerase l k) k = none := by
  induction l with
  | nil => simp [aerase, alookup]
  | cons hd tl ih =>
    obtain ⟨k0, v0⟩ := hd
    have hn : k0 ∉ tl.map Prod.fst ∧ nodupKeys tl := by
      simpa [nodupKeys] using h
    by_cases hk : k0 = k
    · subst hk
      simpa [aerase] using alookup_eq_none_of_not_mem tl k0 hn.1
    · simp [aerase, hk, alookup, ih hn.2]

theorem keys_aset_of_present {β : Type} (l : List (String × β)) (k : String)
    (v : β) (h : (alookup l k).isSome = true) :
    (aset l k v).map Prod.fst = l.map Prod.fst := by
  induction l with
  | nil => simp [alookup] at h
  | cons hd tl ih =>
    obtain ⟨k0, v0⟩ := hd
    by_cases hk : k0 = k
    · simp [aset, hk]
    · simp only [alookup, hk, if_false] at h
      simp [aset, hk, ih h]

theorem keys_aset_mem {β : Type} (l : List (String × β)) (k : String) (v : β)
    (k' : String) (h : k' ∈ (aset l k v).map Prod.fst) :
    k' ∈ l.map Prod.fst ∨ k' = k := by
  induction l with
  | nil => simpa [aset] using h
  | cons hd tl ih =>
    obtain ⟨k0, v0⟩ := hd
    by_cases hk : k0 = k
    · simp only [aset, hk, if_true, List.map_cons, List.mem_cons] at h
      rcases h with h | h
      · exact Or.inr h
      · exact Or.inl (List.mem_cons.2 (Or.inr h))
    · simp only [aset, hk, if_false, List.map_cons, List.mem_cons] at h
      rcases h with h | h
      · exact Or.inl (List.mem_cons.2 (Or.inl h))
      · rcases ih h with h1 | h1
        · exact Or.inl (List.mem_cons.2 (Or.inr h1))
        · exact Or.inr h1

theorem nodupKeys_aset {β : Type} (l : List (String × β)) (k : String) (v : β)
    (h : nodupKeys l) : nodupKeys (aset l k v) := by
  induction l with
  | nil => simp [aset, nodupKeys]
  | cons hd tl ih =>
    obtain ⟨k0, v0⟩ := hd
    have hn : k0 ∉ tl.map Prod.fst ∧ nodupKeys tl := by
      simpa [nodupKeys] using h
    by_cases hk : k0 = k
    · subst hk
      simpa [aset, nodupKeys] using hn
    · simp only [nodupKeys, List.map_cons, List.nodup_cons, aset, hk, if_false]
      refine ⟨?_, ih hn.2⟩
      intro hmem0
      rcases keys_aset_mem tl k v k0 hmem0 with h1 | h1
      · exact hn.1 h1
      · exact hk h1

theorem keys_filter_subset {β : Type} (p : String × β → Bool)
    (l : List (String × β)) (k : String)
    (h : k ∈ (l.filter p).map Prod.fst) : k ∈ l.map Prod.fst :=
  ((l.filter_sublist).map Prod.fst).subset h

theorem alookup_filter_of_some {β : Type} (p : String × β → Bool)
    (l : List (String × β)) (k : String) (v : β) (hnd : nodupKeys l)
    (h : alookup l k = some v) :
    alookup (l.filter p) k = if p (k, v) then some v else none := by
  induction l with
  | nil => simp [alookup] at h
  | cons hd tl ih =>
    obtain ⟨k0, v0⟩ := hd
    have hn : k0 ∉ tl.map Prod.fst ∧ nodupKeys tl := by
      simpa [nodupKeys] using hnd
    by_cases hk : k0 = k
    · subst hk
      have hv : v0 = v := by simpa [alookup] using h
      subst hv
      by_cases hp : p (k0, v0) = true
      · simp [List.filter_cons, hp, alookup]
      · have hnone : alookup (tl.filter p) k0 = none :=
          alookup_eq_none_of_not_mem _ _
            (fun hmem => hn.1 (keys_filter_subset p tl k0 hmem))
        simp [List.filter_cons, hp, hnone]
    · simp only [alookup, hk, if_false] at h
      by_cases hp : p (k0, v0) = true
      · simp [List.filter_cons, hp, alookup, hk, ih hn.2 h]
      · simp [List.filter_cons, hp, ih hn.2 h]

theorem alookup_filter_of_none {β : Type} (p : String × β → Bool)
    (l : List (String × β)) (k : String) (h : alookup l k = none) :
    alookup (l.filter p) k = none := by
  induction l with
  | nil => simp [alookup]
  | cons hd tl ih =>
    obtain ⟨k0, v0⟩ := hd
    by_cases hk : k0 = k
    · simp [alookup, hk] at h
    · simp only [alookup, hk, if_false] at h
      by_cases hp : p (k0, v0) = true
      · simp [List.filter_cons, hp, alookup, hk, ih h]
      · simp [List.filter_cons, hp, ih h]

/-! ### Shared facts about `get_or_create_query_id` -/

/-- Once the fingerprint sits in `seen_hashes`, `get_or_create_query_id`
reports a duplicate — whatever the cache says — and leaves it there. -/
theorem gocqi_result_of_seen (s : DeduplicationService) (t : Nat) (c : Content)
    (h : (alookup s.seen_hashes (generate_query_id c)).isSome = true) :
    (s.get_or_create_query_id t c).1 = (generate_query_id c, false) ∧
    (alookup (s.get_or_create_query_id t c).2.seen_hashes
      (generate_query_id c)).isSome = true := by
  constructor <;>
    simp [DeduplicationService.get_or_create_query_id,
      DeduplicationService.is_duplicate, h]

/-- When the duplicate check comes back false, the call reports a new query and
records the fingerprint in `seen_hashes`. -/
theorem gocqi_result_of_unseen (s : DeduplicationService) (t : Nat) (c : Content)
    (h : (s.is_duplicate t (generate_query_id c)).1 = false) :
    (s.get_or_create_query_id t c).1 = (generate_query_id c, true) ∧
    (alookup (s.get_or_create_query_id t c).2.seen_hashes
      (generate_query_id c)).isSome = true := by
  constructor
  · simp [DeduplicationService.get_or_create_query_id, h]
  · simp [DeduplicationService.get_or_create_query_id, h,
      DeduplicationService.mark_as_seen, alookup_aset_self]

/-- Every serialized repetition after the fingerprint is in `seen_hashes`
reports a duplicate. -/
theorem serialRun_replicate_false (now : Nat) (c : Content) (n : Nat)
    (s : DeduplicationService)
    (h : (alookup s.seen_hashes (generate_query_id c)).isSome = true) :
    serialRun now c n s = List.replicate n false := by
  induction n generalizing s with
  | zero => simp [serialRun]
  | succ n ih =>
    have hA := gocqi_result_of_seen s now c h
    simp only [serialRun, List.replicate_succ]
    rw [hA.1]
    exact congrArg (List.cons false) (ih _ hA.2)

/-- With the `similarity = 0.0` placeholder, the scan collects nothing as soon
as the threshold is positive, whatever the seen set holds. -/
theorem find_similar_aux_nil (cache : CacheService SeenRecord) (now : Nat)
    (threshold : ℚ) (h : ¬((0 : ℚ) ≥ threshold)) :
    ∀ l : List (String × Nat),
      (find_similar_aux cache now threshold l).1 = [] := by
  intro l
  induction l generalizing cache with
  | nil => simp [find_similar_aux]
  | cons hd tl ih =>
    obtain ⟨q, t⟩ := hd
    simp only [find_similar_aux]
    cases hr : (cache.get now ("query_seen_" ++ q)).1 with
    | none => exact ih _
    | some v => simp [hr, h, ih]

theorem filter_id_replicate_false (n : Nat) :
    (List.replicate n false).filter (fun b => b) = [] := by
  induction n with
  | zero => simp
  | succ n ih =>
    rw [List.replicate_succ, List.filter_cons]
    simp [ih]

/-- Sanity check of the SHA-256 embedding on the standard test vector. -/
theorem sha256_abc_vector :
    sha256hex (strBytes "abc")
      = "ba7816bf8f01cfea414140de5dae2223b00361a396177a9cb410ff61f20015ad" := by
  decide

/-- Sanity check of the full fingerprint pipeline against
`hashlib.sha256(json.dumps(..., sort_keys=True).encode()).hexdigest()` computed
on the spec's first example content. -/
theorem generate_query_id_example_vector :
    generate_query_id
      { symptoms := some "Fever, Headache", age := some 30,
        gender := none, language := some "English" }
      = "5ffeb5f8f7ec9eb4961269246d401067c1b9354c977a04b0509231d8049f2f8a" := by
  decide

/-! ### Claim C4 — `set` semantics and capacity eviction -/

/-- C4 counterexample: the claim "a set that overwrites an already-present key
never evicts any other entry" is false.  With `max_size = 2` and k1, k2 both
live, re-setting the already-present k2 still triggers eviction (the guard is
`len(cache) >= max_size` before any key check) and throws out k1. -/
theorem C4_counterexample :
    let s2 := ((mkCacheService Nat none (some 2)).set 0 "k1" 1 (some 100)).set 1
      "k2" 2 (some 100)
    (alookup s2.cache "k1").isSome = true ∧
    alookup ((s2.set 2 "k2" 9 (some 100)).cache) "k1" = none := by
  decide

/-- C4 amended: `set` stores the value under expiration `now + ttl`, but the
eviction guard fires exactly when the number of physically present entries
(expired ones included) is at least `max_size` at the start of the call — even
when the key is already present, in which case the oldest-created entry
(possibly another key) is evicted.  Below capacity, `set` only rewrites its own
key.  The k1, k2, k3 insertion example behaves as claimed: k1 is evicted and
exactly k2, k3 remain live. -/
theorem C4_amended :
    (∀ (α : Type) (s : CacheService α) (now : Nat) (k : String) (v : α)
        (ttl? : Option Nat),
        s.cache.length < s.max_size →
        (s.set now k v ttl?).cache
          = aset s.cache k ⟨v, now, now + orDefault ttl? s.ttl, 0⟩) ∧
    (let s3 := (((mkCacheService Nat none (some 2)).set 0 "k1" 1
        (some 100)).set 1 "k2" 2 (some 100)).set 2 "k3" 3 (some 100)
     (s3.get 2 "k1").1 = none ∧ (s3.get 2 "k2").1 = some 2 ∧
     (s3.get 2 "k3").1 = some 3 ∧ s3.cache.length = 2) ∧
    (let s2 := ((mkCacheService Nat none (some 2)).set 0 "k1" 1 (some 100)).set 1
        "k2" 2 (some 100)
     alookup ((s2.set 2 "k2" 9 (some 100)).cache) "k1" = none ∧
     (((s2.set 2 "k2" 9 (some 100)).get 2 "k2").1 = some 9)) := by
  refine ⟨?_, by decide, by decide⟩
  intro α s now k v ttl? h
  simp [CacheService.set, Nat.not_le.mpr h]

/-- C4 witness: the no-eviction-below-capacity clause of `C4_amended`
instantiated on a concrete store of size 0 < 2. -/
theorem C4_witness :
    (mkCacheService Nat none (some 2)).cache.length
      < (mkCacheService Nat none (some 2)).max_size ∧
    ((mkCacheService Nat none (some 2)).set 0 "k1" 1 (some 100)).cache
      = aset (mkCacheService Nat none (some 2)).cache "k1" ⟨1, 0, 0 + 100, 0⟩ :=
  ⟨by decide,
   C4_amended.1 Nat (mkCacheService Nat none (some 2)) 0 "k1" 1 (some 100)
     (by decide)⟩

/-! ### Claim C5 — `get` semantics: hit counting, lazy expiry, no sliding
expiration -/

/-- C5: a stored, unexpired entry is returned by `get` with its hit counter
incremented by exactly one and `expires_at` untouched; an expired entry is
removed and `None` returned; a never-stored key returns `None` and leaves the
store unchanged; and `set key value ttl` stores the value with expiration
`now + ttl` and zero hits. -/
theorem C5_get_semantics {α : Type} (s : CacheService α) (now : Nat)
    (key : String) (e : CacheEntry α) (hnd : nodupKeys s.cache)
    (hl : alookup s.cache key = some e) :
    (now ≤ e.expires_at →
      (s.get now key).1 = some e.value ∧
      alookup (s.get now key).2.cache key = some { e with hits := e.hits + 1 }) ∧
    (e.expires_at < now →
      (s.get now key).1 = none ∧ alookup (s.get now key).2.cache key = none) ∧
    (∀ (s0 : CacheService α) (k0 : String) (t0 : Nat),
        alookup s0.cache k0 = none → s0.get t0 k0 = (none, s0)) ∧
    (∀ (v : α) (ttl : Nat), ttl ≠ 0 →
        alookup (s.set now key v (some ttl)).cache key
          = some ⟨v, now, now + ttl, 0⟩) := by
  refine ⟨?_, ?_, ?_, ?_⟩
  · intro h
    constructor
    · simp [CacheService.get, hl, Nat.not_lt.mpr h]
    · simp [CacheService.get, hl, Nat.not_lt.mpr h, alookup_aset_self]
  · intro h
    constructor
    · simp [CacheService.get, hl, h]
    · simp [CacheService.get, hl, h, alookup_aerase_self _ _ hnd]
  · intro s0 k0 t0 h0
    simp [CacheService.get, h0]
  · intro v ttl httl
    simp [CacheService.set, orDefault, httl, alookup_aset_self]

/-- C5 witness: `C5_get_semantics` on a store holding `"k" ↦ 7` with
`expires_at = 10`, read at time 0 (hit) — the value comes back and the hit
counter moves 0 → 1. -/
theorem C5_witness :
    nodupKeys ((mkCacheService Nat none none).set 0 "k" 7 (some 10)).cache ∧
    alookup ((mkCacheService Nat none none).set 0 "k" 7 (some 10)).cache "k"
      = some ⟨7, 0, 10, 0⟩ ∧
    ((((mkCacheService Nat none none).set 0 "k" 7 (some 10)).get 0 "k").1
        = some 7 ∧
      alookup ((((mkCacheService Nat none none).set 0 "k" 7
        (some 10)).get 0 "k")).2.cache "k" = some ⟨7, 0, 10, 1⟩) :=
  ⟨by decide, by decide,
   (C5_get_semantics ((mkCacheService Nat none none).set 0 "k" 7 (some 10)) 0
     "k" ⟨7, 0, 10, 0⟩ (by decide) (by decide)).1 (by decide)⟩

/-! ### Claim C6 — persistence round trip -/

/-- C6: after `save_to_disk` and `load_from_disk` into a fresh instance, every
entry unexpired at load time is retrievable by `get` with its original value,
and every entry already expired at load time was dropped eagerly during the
load. -/
theorem C6_persistence_round_trip {α : Type} (s f : CacheService α) (t : Nat)
    (key : String) (hnd : nodupKeys s.cache) :
    (∀ e : CacheEntry α, alookup s.cache key = some e →
        (t ≤ e.expires_at →
          ((f.load_from_disk s.save_to_disk t).get t key).1 = some e.value) ∧
        (e.expires_at < t →
          alookup (f.load_from_disk s.save_to_disk t).cache key = none ∧
          ((f.load_from_disk s.save_to_disk t).get t key).1 = none)) ∧
    (alookup s.cache key = none →
        ((f.load_from_disk s.save_to_disk t).get t key).1 = none) := by
  constructor
  · intro e he
    have hf := alookup_filter_of_some
      (fun p => !(decide (t > p.2.expires_at))) s.cache key e hnd he
    constructor
    · intro h
      have : alookup (f.load_from_disk s.save_to_disk t).cache key = some e := by
        simpa [CacheService.load_from_disk, CacheService.save_to_disk,
          Nat.not_lt.mpr h] using hf
      simp [CacheService.get, this, Nat.not_lt.mpr h]
    · intro h
      have : alookup (f.load_from_disk s.save_to_disk t).cache key = none := by
        simpa [CacheService.load_from_disk, CacheService.save_to_disk, h]
          using hf
      exact ⟨this, by simp [CacheService.get, this]⟩
  · intro he
    have : alookup (f.load_from_disk s.save_to_disk t).cache key = none := by
      simpa [CacheService.load_from_disk, CacheService.save_to_disk] using
        alookup_filter_of_none (fun p => !(decide (t > p.2.expires_at)))
          s.cache key he
    simp [CacheService.get, this]

/-- C6 witness: a store with an entry expiring at 5 and one expiring at 100 is
saved and loaded into a fresh store at time 50: the live entry is retrievable
with its original value, the expired one is gone from the loaded store. -/
theorem C6_witness :
    nodupKeys (((mkCacheService Nat none none).set 0 "a" 1 (some 5)).set 0 "b" 2
      (some 100)).cache ∧
    (((mkCacheService Nat none none).load_from_disk
        (((mkCacheService Nat none none).set 0 "a" 1 (some 5)).set 0 "b" 2
          (some 100)).save_to_disk 50).get 50 "b").1 = some 2 ∧
    alookup ((mkCacheService Nat none none).load_from_disk
        (((mkCacheService Nat none none).set 0 "a" 1 (some 5)).set 0 "b" 2
          (some 100)).save_to_disk 50).cache "a" = none :=
  ⟨by decide,
   ((C6_persistence_round_trip
      (((mkCacheService Nat none none).set 0 "a" 1 (some 5)).set 0 "b" 2
        (some 100)) (mkCacheService Nat none none) 50 "b" (by decide)).1
      ⟨2, 0, 100, 0⟩ (by decide)).1 (by decide),
   (((C6_persistence_round_trip
      (((mkCacheService Nat none none).set 0 "a" 1 (some 5)).set 0 "b" 2
        (some 100)) (mkCacheService Nat none none) 50 "a" (by decide)).1
      ⟨1, 0, 5, 0⟩ (by decide)).2 (by decide)).1⟩

/-! ### Claim C10 — `delete` ignores expiry -/

/-- C10: for a physically present but expired entry, `delete` returns `True`
and removes it, while `get` and `exists` on the same state report the key as
absent; in general `delete`'s boolean result is raw key presence and never
consults expiry. -/
theorem C10_delete_ignores_expiry {α : Type} (s : CacheService α) (t : Nat)
    (key : String) (e : CacheEntry α) (hl : alookup s.cache key = some e)
    (hexp : e.expires_at < t) :
    s.delete key = (true, { s with cache := aerase s.cache key }) ∧
    (s.get t key).1 = none ∧
    (s.existsKey t key).1 = false ∧
    (∀ (s0 : CacheService α) (k0 : String),
        (s0.delete k0).1 = (alookup s0.cache k0).isSome) := by
  refine ⟨?_, ?_, ?_, ?_⟩
  · simp [CacheService.delete, hl]
  · simp [CacheService.get, hl, hexp]
  · simp [CacheService.existsKey, CacheService.get, hl, hexp]
  · intro s0 k0
    by_cases h : (alookup s0.cache k0).isSome = true <;>
      simp [CacheService.delete, h]

/-- C10 witness: `"k" ↦ 7` expired at time 11 — `delete` still returns `True`
while `get` reports absence. -/
theorem C10_witness :
    alookup ((mkCacheService Nat none none).set 0 "k" 7 (some 10)).cache "k"
      = some ⟨7, 0, 10, 0⟩ ∧
    ((10 : Nat) < 11) ∧
    ((((mkCacheService Nat none none).set 0 "k" 7 (some 10)).delete "k").1 = true ∧
     ((((mkCacheService Nat none none).set 0 "k" 7 (some 10)).get 11 "k").1
        = none)) :=
  ⟨by decide, by decide,
   congrArg Prod.fst
     (C10_delete_ignores_expiry ((mkCacheService Nat none none).set 0 "k" 7
        (some 10)) 11 "k" ⟨7, 0, 10, 0⟩ (by decide) (by decide)).1,
   (C10_delete_ignores_expiry ((mkCacheService Nat none none).set 0 "k" 7
      (some 10)) 11 "k" ⟨7, 0, 10, 0⟩ (by decide) (by decide)).2.1⟩

/-! ### Claim C1 — dedup status after TTL expiry -/

/-- C1 counterexample: after a successful first `get_or_create_query_id` at
time 0, at time 86401 the cache seen-record has expired (its lazy `get` comes
back empty), yet the next call still reports `is_new = false`: the in-memory
`seen_hashes` fallback never expires, so the fingerprint is NOT treated as new
again. -/
theorem C1_counterexample :
    (((initialDedup.get_or_create_query_id 0 csmall).2.cache_service.get 86401
        ("query_seen_" ++ generate_query_id csmall)).1 = none) ∧
    ((initialDedup.get_or_create_query_id 0 csmall).2.get_or_create_query_id
        86401 csmall).1.2 = false := by
  constructor
  · decide
  · decide

/-- C1 amended: once a call has returned `is_new = true` for a content, every
later call with the same content — at any time, in particular after the 24-hour
dedup TTL of the cache record has expired — returns `(fingerprint, false)`:
the fingerprint's dedup status never returns to UNSEEN within a service
lifetime, because `seen_hashes` has no TTL. -/
theorem C1_amended (s : DeduplicationService) (t0 t1 : Nat) (c : Content)
    (h : (s.get_or_create_query_id t0 c).1.2 = true) :
    ((s.get_or_create_query_id t0 c).2.get_or_create_query_id t1 c).1
      = (generate_query_id c, false) := by
  by_cases hd : (s.is_duplicate t0 (generate_query_id c)).1 = false
  · exact (gocqi_result_of_seen _ t1 c (gocqi_result_of_unseen s t0 c hd).2).1
  · exfalso
    rw [Bool.not_eq_false] at hd
    simp [DeduplicationService.get_or_create_query_id, hd] at h

/-- C1 witness: `C1_amended` on a fresh service at times 0 and 86401 (one
second past dedup TTL expiry). -/
theorem C1_witness :
    (initialDedup.get_or_create_query_id 0 csmall).1.2 = true ∧
    ((initialDedup.get_or_create_query_id 0 csmall).2.get_or_create_query_id
        86401 csmall).1 = (generate_query_id csmall, false) :=
  ⟨by decide, C1_amended initialDedup 0 86401 csmall (by decide)⟩

/-! ### Claim C2 — fingerprint normalization -/

/-- C2 counterexample: the spec's two example contents do NOT produce identical
fingerprints — `generate_query_id` lower-cases only the `symptoms` field, and
`"English"` vs `"english"` in the `language` field changes the digest. -/
theorem C2_counterexample :
    generate_query_id exampleContent1 ≠ generate_query_id exampleContent2 := by
  decide

/-- C2 amended: `generate_query_id` is a deterministic function of the
normalized content, where normalization lower-cases and strips ONLY the
`symptoms` field, passes `age` and `gender` through (absent ↦ null), and
defaults a missing `language` to `'english'` without case-folding it; contents
equal under THAT normalization collide, but the spec's example pair (differing
in `language` case) produces different fingerprints. -/
theorem C2_amended :
    (∀ c1 c2 : Content, normalize c1 = normalize c2 →
        generate_query_id c1 = generate_query_id c2) ∧
    generate_query_id exampleContent1 ≠ generate_query_id exampleContent2 := by
  constructor
  · intro c1 c2 h
    simp [generate_query_id, h]
  · decide

/-- C2 witness: two contents with differently-cased, differently-padded
`symptoms` normalize identically, and `C2_amended` makes their fingerprints
collide. -/
theorem C2_witness :
    normalize { symptoms := some " FEVER ", age := none, gender := none,
                language := none }
      = normalize { symptoms := some "fever", age := none, gender := none,
                    language := none } ∧
    generate_query_id { symptoms := some " FEVER ", age := none, gender := none,
                        language := none }
      = generate_query_id { symptoms := some "fever", age := none,
                            gender := none, language := none } :=
  ⟨by decide,
   C2_amended.1
     { symptoms := some " FEVER ", age := none, gender := none, language := none }
     { symptoms := some "fever", age := none, gender := none, language := none }
     (by decide)⟩

/-! ### Claim C3 — dedup idempotence -/

/-- C3: for content whose fingerprint is not currently marked seen, two
back-to-back `get_or_create_query_id` calls return `(id1, true)` then
`(id1, false)` with the same `id1 = generate_query_id c` both times. -/
theorem C3_dedup_idempotence (s : DeduplicationService) (t : Nat) (c : Content)
    (h : (s.is_duplicate t (generate_query_id c)).1 = false) :
    (s.get_or_create_query_id t c).1 = (generate_query_id c, true) ∧
    ((s.get_or_create_query_id t c).2.get_or_create_query_id t c).1
      = (generate_query_id c, false) :=
  ⟨(gocqi_result_of_unseen s t c h).1,
   (gocqi_result_of_seen _ t c (gocqi_result_of_unseen s t c h).2).1⟩

/-- C3 witness: the idempotence pair on a fresh service. -/
theorem C3_witness :
    (initialDedup.is_duplicate 0 (generate_query_id csmall)).1 = false ∧
    (initialDedup.get_or_create_query_id 0 csmall).1
      = (generate_query_id csmall, true) ∧
    ((initialDedup.get_or_create_query_id 0 csmall).2.get_or_create_query_id 0
        csmall).1 = (generate_query_id csmall, false) :=
  ⟨by decide,
   (C3_dedup_idempotence initialDedup 0 csmall (by decide)).1,
   (C3_dedup_idempotence initialDedup 0 csmall (by decide)).2⟩

/-! ### Claim C7 — side effects of a duplicate-path call -/

/-- C7 counterexample: a duplicate-path `get_or_create_query_id` is NOT free of
side effects — the duplicate check goes through `CacheService.get`, which
increments the seen-record's hit counter from 0 to 1. -/
theorem C7_counterexample :
    ((alookup (initialDedup.get_or_create_query_id 0 csmall).2.cache_service.cache
        ("query_seen_" ++ generate_query_id csmall)).map CacheEntry.hits
      = some 0) ∧
    ((initialDedup.get_or_create_query_id 0 csmall).2.get_or_create_query_id 0
        csmall).1.2 = false ∧
    ((alookup ((initialDedup.get_or_create_query_id 0
          csmall).2.get_or_create_query_id 0
          csmall).2.cache_service.cache
        ("query_seen_" ++ generate_query_id csmall)).map CacheEntry.hits
      = some 1) := by
  refine ⟨by decide, by decide, by decide⟩

/-- C7 amended: when the seen-record is present and unexpired,
`get_or_create_query_id` returns `(id, false)`, leaves `seen_hashes` untouched,
creates no new cache entry (the key set is unchanged), and its only mutation is
the hit-counter increment of the seen-record's cache entry performed by the
lookup. -/
theorem C7_amended (s : DeduplicationService) (t : Nat) (c : Content)
    (e : CacheEntry SeenRecord)
    (hl : alookup s.cache_service.cache
        ("query_seen_" ++ generate_query_id c) = some e)
    (hexp : t ≤ e.expires_at) :
    (s.get_or_create_query_id t c).1 = (generate_query_id c, false) ∧
    (s.get_or_create_query_id t c).2.seen_hashes = s.seen_hashes ∧
    (s.get_or_create_query_id t c).2.cache_service.cache
      = aset s.cache_service.cache ("query_seen_" ++ generate_query_id c)
          { e with hits := e.hits + 1 } ∧
    (s.get_or_create_query_id t c).2.cache_service.cache.map Prod.fst
      = s.cache_service.cache.map Prod.fst := by
  have hget : s.cache_service.get t ("query_seen_" ++ generate_query_id c)
      = (some e.value,
         { s.cache_service with
           cache := aset s.cache_service.cache
             ("query_seen_" ++ generate_query_id c)
             { e with hits := e.hits + 1 } }) := by
    simp [CacheService.get, hl, Nat.not_lt.mpr hexp]
  refine ⟨?_, ?_, ?_, ?_⟩
  · simp [DeduplicationService.get_or_create_query_id,
      DeduplicationService.is_duplicate, hget]
  · simp [DeduplicationService.get_or_create_query_id,
      DeduplicationService.is_duplicate, hget]
  · simp [DeduplicationService.get_or_create_query_id,
      DeduplicationService.is_duplicate, hget]
  · simp [DeduplicationService.get_or_create_query_id,
      DeduplicationService.is_duplicate, hget]
    exact keys_aset_of_present _ _ _ (by simp [hl])

/-- C7 witness: `C7_amended` on the state produced by a first call at time 0,
read again at time 0 (record unexpired, hit counter 0 → 1). -/
theorem C7_witness :
    alookup (initialDedup.get_or_create_query_id 0 csmall).2.cache_service.cache
        ("query_seen_" ++ generate_query_id csmall)
      = some ⟨⟨0, generate_query_id csmall⟩, 0, 86400, 0⟩ ∧
    ((initialDedup.get_or_create_query_id 0 csmall).2.get_or_create_query_id 0
        csmall).1 = (generate_query_id csmall, false) :=
  ⟨by decide,
   (C7_amended (initialDedup.get_or_create_query_id 0 csmall).2 0 csmall
      ⟨⟨0, generate_query_id csmall⟩, 0, 86400, 0⟩ (by decide) (by decide)).1⟩

/-! ### Claim C8 — the concurrent dedup race -/

/-- C8 counterexample: under the source's non-atomic check-then-act there is a
valid interleaving of two concurrent `get_or_create_query_id` calls with
identical content — both run the duplicate check before either marks — in
which BOTH calls observe `is_new = true`: the number of calls observing `true`
is 2, not exactly 1. -/
theorem C8_counterexample :
    ((raceRun 0 csmall ⟨initialDedup, [CallPhase.start, CallPhase.start]⟩
        [0, 1, 0, 1]).threads.filter
      (fun p => p == CallPhase.done true)).length = 2 := by
  decide

/-- C8 amended: the check-then-act in the source is not atomic, so the claim
only holds for serialized execution: interleaving two calls check/check/mark/mark
makes both observe `is_new = true`, while `N ≥ 1` serialized calls starting from
an unseen fingerprint yield exactly one `true` (the first call) and `N − 1`
`false`s. -/
theorem C8_amended (s : DeduplicationService) (now : Nat) (c : Content)
    (n : Nat) (h : (s.is_duplicate now (generate_query_id c)).1 = false) :
    (((raceRun 0 csmall ⟨initialDedup, [CallPhase.start, CallPhase.start]⟩
        [0, 1, 0, 1]).threads.filter
      (fun p => p == CallPhase.done true)).length = 2) ∧
    ((serialRun now c (n + 1) s).filter (fun b => b)).length = 1 := by
  constructor
  · decide
  · have h1 := gocqi_result_of_unseen s now c h
    simp only [serialRun]
    rw [h1.1, serialRun_replicate_false now c n _ h1.2]
    simp [filter_id_replicate_false]

/-- C8 witness: `C8_amended` for two serialized calls on a fresh service. -/
theorem C8_witness :
    (initialDedup.is_duplicate 0 (generate_query_id csmall)).1 = false ∧
    ((serialRun 0 csmall 2 initialDedup).filter (fun b => b)).length = 1 :=
  ⟨by decide, (C8_amended initialDedup 0 csmall 1 (by decide)).2⟩

/-! ### Claim C9 — similarity scan is an unimplemented placeholder -/

/-- C9: evaluation of the code at the failing input.  With one recently-seen
query whose original symptom text is `"a"`, a scan for reference text `"a"` at
threshold 0.9 must — per the claim and the code's own
`calculate_text_similarity`, whose Jaccard score here is 1 ≥ 0.9 — return that
fingerprint; but `find_similar_queries` hard-codes `similarity = 0.0`
(a `# Placeholder`), never consults the similarity function (the cached record
does not even retain the original text), and returns the empty list. -/
theorem C9_find_similar_placeholder :
    (((initialDedup.get_or_create_query_id 0 csmall).2.find_similar_queries 0
        "a" (9 / 10)).1 = []) ∧
    calculate_text_similarity "a" "a" = 1 ∧
    ((9 : ℚ) / 10 ≤ calculate_text_similarity "a" "a") := by
  have hsim : calculate_text_similarity "a" "a" = 1 := by
    have h1 : (pySplitWords "a").dedup = ["a"] := by decide
    simp [calculate_text_similarity, h1]
  refine ⟨?_, hsim, by rw [hsim]; norm_num⟩
  have hfs := find_similar_aux_nil
    (initialDedup.get_or_create_query_id 0 csmall).2.cache_service 0 (9 / 10)
    (by norm_num)
  simp [DeduplicationService.find_similar_queries, hfs]

end Phc
